import Mathlib

/-!
Verification of the `cryptology` market-data websocket client
(`cryptology/market_data_client.py`): a shallow embedding of the frame
decoder (`receive_msg`), the message router (`reader_loop`) and the entry
point (`run`), together with executable models of the Python standard
library pieces the source calls (`json.loads`, `decimal.Decimal`,
`datetime.utcfromtimestamp`).  Parts of the repository that are not in
the sources at hand (the `common` and `exceptions` modules) are modelled
from the design document and marked as such in their doc comments.
-/

namespace Cryptology

/-- Decoded JSON value, as produced by Python `json.loads`: objects become
dicts with string keys, arrays become lists, numbers here are the protocol's
integers, plus strings, booleans and null. -/
inductive Json where
  | null : Json
  | bool (b : Bool) : Json
  | num (n : Int) : Json
  | str (s : String) : Json
  | arr (elems : List Json) : Json
  | obj (fields : List (String × Json)) : Json

/-- Python `==` between a decoded value and a string literal: true only for
an equal string (Python compares other types to a string as unequal, without
raising). -/
def Json.eqStr : Json → String → Bool
  | .str s, t => s = t
  | _, _ => false

/-- Python dict lookup on an association list; later bindings shadow earlier
ones, as repeated JSON keys do in a Python dict. -/
def pyGet (kvs : List (String × Json)) (k : String) : Option Json :=
  kvs.foldl (fun acc p => if p.1 = k then some p.2 else acc) none

/-- Python exception values relevant to the client, identified by class
(the `except` clause dispatches on class only). `jsonDecodeError` is
`json.JSONDecodeError`, a subclass of `ValueError`; `invalidOperation` is
`decimal.InvalidOperation`, a subclass of `ArithmeticError` (not of
`ValueError`). `connectionClosed` models the close-frame signal of the
spec's error taxonomy. -/
inductive PyErr where
  | keyError : PyErr
  | indexError : PyErr
  | typeError : PyErr
  | valueError : PyErr
  | jsonDecodeError : PyErr
  | invalidOperation : PyErr
  | unsupportedMessageType : PyErr
  | connectionClosed (code : Int) (reason : String) : PyErr
  | cryptologyError (msg : String) : PyErr
  | other (name : String) : PyErr
deriving DecidableEq, Repr

/-- Python subscript `v[k]` with a string key: dicts give the bound value or
`KeyError`; every other JSON value (list, string, number, bool, null) raises
`TypeError` for a string subscript. -/
def subscr : Json → String → Except PyErr Json
  | .obj kvs, k =>
      match pyGet kvs k with
      | some v => .ok v
      | none => .error .keyError
  | _, _ => .error .typeError

/-- Python subscript `v[0]`: lists give the head or `IndexError`; strings
give their first character or `IndexError`; dicts raise `KeyError` (integer
key absent from a string-keyed dict); numbers, booleans and null raise
`TypeError`. -/
def pyIndex0 : Json → Except PyErr Json
  | .arr [] => .error .indexError
  | .arr (x :: _) => .ok x
  | .str s =>
      match s.toList with
      | [] => .error .indexError
      | c :: _ => .ok (.str (String.singleton c))
  | .obj _ => .error .keyError
  | _ => .error .typeError

/-! ### An executable model of `json.loads`

Recursive-descent parser for the protocol's JSON subset: objects, arrays,
escape-free strings, integer numbers, booleans and null.  Fuelled to make
termination structural; `json_loads` supplies ample fuel. -/

/-- Leading JSON whitespace removal. -/
def skipWs : List Char → List Char
  | c :: rest =>
      if c = ' ' ∨ c = '\n' ∨ c = '\t' ∨ c = '\r' then skipWs rest else c :: rest
  | [] => []

/-- Body of a JSON string after the opening quote, up to the closing quote;
escape sequences are outside the modelled subset. -/
def parseStringChars : List Char → Option (List Char × List Char)
  | [] => none
  | c :: rest =>
      if c = '"' then some ([], rest)
      else if c = '\\' then none
      else
        match parseStringChars rest with
        | some (s, r) => some (c :: s, r)
        | none => none

/-- Splits off the longest prefix of decimal digits. -/
def spanDigits : List Char → List Char × List Char
  | [] => ([], [])
  | c :: rest =>
      if c.isDigit then
        let p := spanDigits rest
        (c :: p.1, p.2)
      else ([], c :: rest)

/-- Value of a digit string, most significant first, continuing from `acc`. -/
def digitsToNatAux (acc : Nat) : List Char → Nat
  | [] => acc
  | c :: rest => digitsToNatAux (10 * acc + (c.toNat - 48)) rest

/-- Value of a digit string, most significant digit first. -/
def digitsToNat (l : List Char) : Nat := digitsToNatAux 0 l

/-- A JSON integer literal: optional minus sign, then digits. -/
def parseNumber (l : List Char) : Option (Int × List Char) :=
  match l with
  | '-' :: rest =>
      let p := spanDigits rest
      if p.1 = [] then none else some (-(digitsToNat p.1 : Int), p.2)
  | _ =>
      let p := spanDigits l
      if p.1 = [] then none else some ((digitsToNat p.1 : Int), p.2)

mutual

/-- One JSON value; returns the value and the unconsumed input. -/
def parseVal : Nat → List Char → Option (Json × List Char)
  | 0, _ => none
  | fuel + 1, l =>
      match skipWs l with
      | 'n' :: 'u' :: 'l' :: 'l' :: rest => some (.null, rest)
      | 't' :: 'r' :: 'u' :: 'e' :: rest => some (.bool true, rest)
      | 'f' :: 'a' :: 'l' :: 's' :: 'e' :: rest => some (.bool false, rest)
      | '"' :: rest =>
          match parseStringChars rest with
          | some (cs, r) => some (.str (String.mk cs), r)
          | none => none
      | '[' :: rest =>
          match skipWs rest with
          | ']' :: r => some (.arr [], r)
          | l2 => parseArrItems fuel l2
      | '{' :: rest =>
          match skipWs rest with
          | '}' :: r => some (.obj [], r)
          | l2 => parseObjItems fuel l2
      | l2 =>
          match parseNumber l2 with
          | some (n, r) => some (.num n, r)
          | none => none

/-- Comma-separated array items up to the closing bracket. -/
def parseArrItems : Nat → List Char → Option (Json × List Char)
  | 0, _ => none
  | fuel + 1, l =>
      match parseVal fuel l with
      | some (v, r) =>
          match skipWs r with
          | ',' :: r2 =>
              match parseArrItems fuel r2 with
              | some (.arr vs, r3) => some (.arr (v :: vs), r3)
              | _ => none
          | ']' :: r2 => some (.arr [v], r2)
          | _ => none
      | none => none

/-- Comma-separated `"key": value` object items up to the closing brace. -/
def parseObjItems : Nat → List Char → Option (Json × List Char)
  | 0, _ => none
  | fuel + 1, l =>
      match skipWs l with
      | '"' :: rest =>
          match parseStringChars rest with
          | some (kcs, r) =>
              match skipWs r with
              | ':' :: r2 =>
                  match parseVal fuel r2 with
                  | some (v, r3) =>
                      match skipWs r3 with
                      | ',' :: r4 =>
                          match parseObjItems fuel r4 with
                          | some (.obj kvs, r5) => some (.obj ((String.mk kcs, v) :: kvs), r5)
                          | _ => none
                      | '}' :: r4 => some (.obj [(String.mk kcs, v)], r4)
                      | _ => none
                  | none => none
              | _ => none
          | none => none
      | _ => none

end

/-- Model of Python `json.loads` on the protocol's JSON subset: parse one
value, allow trailing whitespace only; any failure is `json.JSONDecodeError`
(a subclass of `ValueError`). -/
def json_loads (s : String) : Except PyErr Json :=
  match parseVal (s.length + 1) s.toList with
  | some (v, rest) => if skipWs rest = [] then .ok v else .error .jsonDecodeError
  | none => .error .jsonDecodeError

/-! ### Transport frames and the frame decoder (`receive_msg`) -/

/-- Websocket frame kinds, per the spec's Frame data model
(text/binary/close/error/ping-pong). -/
inductive WSMsgType where
  | TEXT : WSMsgType
  | BINARY : WSMsgType
  | CLOSE : WSMsgType
  | CLOSING : WSMsgType
  | CLOSED : WSMsgType
  | ERROR : WSMsgType
  | PING : WSMsgType
  | PONG : WSMsgType
deriving DecidableEq, Repr

/-- One received websocket message: its kind, its text payload (for
text/binary frames), and the close code/reason (for close-type frames). -/
structure WSMessage where
  type : WSMsgType
  data : String
  close_code : Int
  close_reason : String
deriving DecidableEq, Repr

/-- Modelled from the spec: `common.CLOSE_MESSAGES` (the `common` module is
not among the sources at hand) — the frame kinds that are "a
close/error/unsupported-control type": everything except text and binary
data frames. -/
def CLOSE_MESSAGES : List WSMsgType :=
  [.CLOSE, .CLOSING, .CLOSED, .ERROR, .PING, .PONG]

/-- Modelled from the spec: `exceptions.handle_close_message` (the
`exceptions` module is not among the sources at hand) — for a close-type
frame the decoder "fails with `ConnectionClosed` (carrying the close
code/reason)". -/
def handle_close_message (m : WSMessage) : PyErr :=
  .connectionClosed m.close_code m.close_reason

/-- `receive_msg`: one received frame is either a close-type frame, which
raises the close signal, or a data frame whose payload is parsed as JSON. -/
def receive_msg (m : WSMessage) : Except PyErr Json :=
  if CLOSE_MESSAGES.contains m.type then .error (handle_close_message m)
  else json_loads m.data

/-! ### The server-message category enumeration -/

/-- Modelled from the spec: `common.ServerMessageType` (the `common` module
is not among the sources at hand) — "the enumerated set of server message
categories \x7bBroadcast, …other control categories\x7d".  The spec names
only the broadcast category; the other control categories are kept
abstract as a named arm over a stand-in name list. -/
inductive ServerMessageType where
  | BROADCAST : ServerMessageType
  | CONTROL (name : String) : ServerMessageType
deriving DecidableEq, Repr

/-- Modelled from the spec: the names of the unnamed "other control
categories" of the server-message enumeration; a single stand-in name. -/
def otherControlCategories : List String := ["CONTROL"]

/-- `common.ServerMessageType[x]`, the enumeration lookup by name used at
`reader_loop`'s first step: a member name yields its member, any other
value fails with a `KeyError`-class error (modelled from the spec, which
folds all unknown categories into the same decode failure). -/
def serverMessageType_lookup : Json → Except PyErr ServerMessageType
  | .str s =>
      if s = "BROADCAST" then .ok .BROADCAST
      else if otherControlCategories.contains s then .ok (.CONTROL s)
      else .error .keyError
  | _ => .error .keyError

/-! ### An executable model of `decimal.Decimal` construction

Python's `Decimal` stores a sign, coefficient digits and an exponent; the
value of `Decimal(s)` is exactly the decimal literal `s`, never a binary
float.  A malformed literal raises `decimal.InvalidOperation`, which
derives from `ArithmeticError` — not from `ValueError`. -/

/-- An exact decimal: `coeff * 10 ^ exp`. -/
structure Dec where
  coeff : Int
  exp : Int
deriving DecidableEq, Repr

/-- The exact rational value of a decimal. -/
def Dec.toRat (d : Dec) : ℚ := (d.coeff : ℚ) * (10 : ℚ) ^ d.exp

/-- Unsigned decimal literal: digits with an optional point,
`digits [. digits]` or `. digits`, at least one digit in all. Returns the
coefficient, the exponent contributed by the fraction, and the rest. -/
def parseDecUnsigned (l : List Char) : Option (Nat × Int × List Char) :=
  let p := spanDigits l
  match p.2 with
  | '.' :: r2 =>
      let q := spanDigits r2
      if p.1 = [] ∧ q.1 = [] then none
      else some (digitsToNat (p.1 ++ q.1), -(q.1.length : Int), q.2)
  | _ => if p.1 = [] then none else some (digitsToNat p.1, 0, p.2)

/-- A signed integer consuming the whole input (a decimal exponent). -/
def parseSignedInt (l : List Char) : Option Int :=
  match l with
  | '-' :: r =>
      let p := spanDigits r
      if p.1 = [] ∨ p.2 ≠ [] then none else some (-(digitsToNat p.1 : Int))
  | '+' :: r =>
      let p := spanDigits r
      if p.1 = [] ∨ p.2 ≠ [] then none else some ((digitsToNat p.1 : Nat) : Int)
  | _ =>
      let p := spanDigits l
      if p.1 = [] ∨ p.2 ≠ [] then none else some ((digitsToNat p.1 : Nat) : Int)

/-- Trailing exponent part of a decimal literal: empty, or `e`/`E` followed
by a signed integer. -/
def parseDecSuffix : List Char → Option Int
  | [] => some 0
  | c :: rest => if c = 'e' ∨ c = 'E' then parseSignedInt rest else none

/-- Unsigned body plus exponent suffix, with the given sign applied to the
coefficient. -/
def parseDecSigned (sign : Int) (l : List Char) : Option Dec :=
  match parseDecUnsigned l with
  | some (c, e, rest) =>
      match parseDecSuffix rest with
      | some e2 => some ⟨sign * (c : Int), e + e2⟩
      | none => none
  | none => none

/-- A full decimal literal: optional sign, unsigned body, optional
exponent.  (Python `Decimal` also accepts `NaN`/`Infinity` and surrounding
whitespace; those are outside the protocol's values and this model.) -/
def parseDecString (l : List Char) : Option Dec :=
  match l with
  | [] => none
  | c :: r =>
      if c = '-' then parseDecSigned (-1) r
      else if c = '+' then parseDecSigned 1 r
      else parseDecSigned 1 (c :: r)

/-- `decimal.Decimal(x)` applied to a decoded JSON value: an exact-decimal
string yields its exact value; a malformed string raises
`decimal.InvalidOperation` (an `ArithmeticError`, not a `ValueError`);
integers and booleans convert exactly; other values raise `TypeError`. -/
def py_Decimal : Json → Except PyErr Dec
  | .str s =>
      match parseDecString s.toList with
      | some d => .ok d
      | none => .error .invalidOperation
  | .num n => .ok ⟨n, 0⟩
  | .bool b => .ok ⟨if b then 1 else 0, 0⟩
  | _ => .error .typeError

/-! ### An executable model of `datetime.utcfromtimestamp`

Proleptic-Gregorian civil-date arithmetic.  `Int.ediv`/`Int.emod` agree
with Python's floor division and nonnegative remainder for the positive
divisors used here. -/

/-- A naive UTC datetime, second precision, as produced by
`datetime.utcfromtimestamp` on whole-second input. -/
structure PyDateTime where
  year : Int
  month : Int
  day : Int
  hour : Int
  minute : Int
  second : Int
deriving DecidableEq, Repr

/-- Era index (400-year Gregorian cycle) of a day count, measured from
0000-03-01; the conversion below follows CPython's `_ord2ymd` shape:
century and year-in-quadrennium indices are clamped so the era's leap day
lands in the last century and last year. -/
def cfdEra (z : Int) : Int := (z + 719468).ediv 146097

/-- Day of era, in `[0, 146097)`. -/
def cfdDoe (z : Int) : Int := (z + 719468).emod 146097

/-- Century of era, clamped to `[0, 3]`. -/
def cfdC (z : Int) : Int := min ((cfdDoe z).ediv 36524) 3

/-- Day of century, in `[0, 36524]`. -/
def cfdDoc (z : Int) : Int := cfdDoe z - 36524 * cfdC z

/-- Quadrennium of century, in `[0, 24]`. -/
def cfdQ (z : Int) : Int := (cfdDoc z).ediv 1461

/-- Day of quadrennium, in `[0, 1460]`. -/
def cfdDoq (z : Int) : Int := (cfdDoc z).emod 1461

/-- Year of quadrennium, clamped to `[0, 3]`. -/
def cfdYq (z : Int) : Int := min ((cfdDoq z).ediv 365) 3

/-- Day of March-based year, in `[0, 365]`. -/
def cfdDoy (z : Int) : Int := cfdDoq z - 365 * cfdYq z

/-- Year of era, in `[0, 399]`. -/
def cfdYoe (z : Int) : Int := 100 * cfdC z + 4 * cfdQ z + cfdYq z

/-- March-based month index of the day of year, in `[0, 11]`. -/
def cfdMp (z : Int) : Int := (5 * cfdDoy z + 2).ediv 153

/-- Civil month, in `[1, 12]`. -/
def cfdM (z : Int) : Int := cfdMp z + (if cfdMp z < 10 then 3 else -9)

/-- Civil day of month, in `[1, 31]`. -/
def cfdD (z : Int) : Int := cfdDoy z - (153 * cfdMp z + 2).ediv 5 + 1

/-- Civil year (January-based). -/
def cfdY (z : Int) : Int := cfdEra z * 400 + cfdYoe z + (if cfdM z ≤ 2 then 1 else 0)

/-- Gregorian date for a count of days since 1970-01-01. -/
def civilFromDays (z : Int) : Int × Int × Int := (cfdY z, cfdM z, cfdD z)

/-- Days since 1970-01-01 of a Gregorian date: the independent inverse used
to state the calendar conversion's correctness. -/
def daysFromCivil (y m d : Int) : Int :=
  let y2 := y - (if m ≤ 2 then 1 else 0)
  let era := y2.ediv 400
  let yoe := y2 - era * 400
  let mp := (m + 9).emod 12
  let doy := (153 * mp + 2).ediv 5 + d - 1
  let doe := yoe * 365 + yoe.ediv 4 - yoe.ediv 100 + doy
  era * 146097 + doe - 719468

/-- `datetime.utcfromtimestamp(t)` for a whole-second timestamp: splits the
timestamp into days and seconds-of-day and converts the days to a Gregorian
date; a date outside years 1..9999 raises a `ValueError`-class failure. -/
def utcfromtimestamp (t : Int) : Except PyErr PyDateTime :=
  let days := t.ediv 86400
  let rem := t.emod 86400
  let c := civilFromDays days
  if 1 ≤ c.1 ∧ c.1 ≤ 9999 then
    .ok ⟨c.1, c.2.1, c.2.2, rem.ediv 3600, (rem.emod 3600).ediv 60, rem.emod 60⟩
  else .error .valueError

/-- Whole seconds since the Unix epoch denoted by a UTC datetime; the
specification-side reading of a calendar timestamp. -/
def secondsSinceEpoch (dt : PyDateTime) : Int :=
  daysFromCivil dt.year dt.month dt.day * 86400
    + dt.hour * 3600 + dt.minute * 60 + dt.second

/-- The timestamp argument accepted by `datetime.utcfromtimestamp`: an
integer (or a boolean, an `int` in Python); any other decoded JSON value
raises `TypeError` (which the `except` clause of the loop does not catch). -/
def pyTimestampArg : Json → Except PyErr Int
  | .num n => .ok n
  | .bool b => .ok (if b then 1 else 0)
  | _ => .error .typeError

/-! ### Callback dispatch: events, the router, the read loop -/

/-- A value passed to the order-book callback's level arguments:
`payload.get('buy_levels', dict)` yields either the bound JSON value or —
when the key is absent — the built-in `dict` *class object* that the source
passes as the `.get` default. -/
inductive PyVal where
  | json (j : Json) : PyVal
  | dictType : PyVal

/-- `payload.get(k, dict)` on a dict payload (`AttributeError`-class
failure on any non-dict, never reached after a successful subscript). -/
def py_dict_get (payload : Json) (k : String) : Except PyErr PyVal :=
  match payload with
  | .obj kvs =>
      match pyGet kvs k with
      | some v => .ok (.json v)
      | none => .ok .dictType
  | _ => .error (.other "AttributeError")

/-- Observable callback activity of the router, in program order.
`marketData` is an awaited in-line call; the two `sched` events are
`asyncio.ensure_future` hand-offs, recorded with the argument tuple with
which the callback task was created. -/
inductive Event where
  | marketData (payload : Json) : Event
  | schedOrderBook (oid : Json) (pair : Json) (buy : PyVal) (sell : PyVal) : Event
  | schedTrades (ts : PyDateTime) (oid : Json) (pair : Json) (amount : Dec) (price : Dec) : Event

/-- Whether an event is an `ensure_future` hand-off (as opposed to an
awaited in-line call). -/
def Event.isScheduled : Event → Bool
  | .marketData _ => false
  | .schedOrderBook _ _ _ _ => true
  | .schedTrades _ _ _ _ _ => true

/-- Whether an event is the awaited market-data call. -/
def Event.isMarketData : Event → Bool
  | .marketData _ => true
  | _ => false

/-- The three optional callbacks of `run`/`reader_loop`.  The market-data
callback is awaited in-line, so its behaviour matters to the loop: it is
modelled by the exception (if any) it raises on a given payload.  The
order-book and trades callbacks are only ever scheduled, never awaited, so
only their registration matters. -/
structure Callbacks where
  market_data : Option (Json → Option PyErr)
  order_book_registered : Bool
  trades_registered : Bool

/-- The `'OrderBookAgg'`/`'AnonymousTrade'` payload dispatch of
`reader_loop` (the body after the awaited market-data call): inspects
`payload['@type']` and either schedules the matching registered callback
with arguments evaluated in source order, does nothing when that callback
is unregistered, or raises `UnsupportedMessageType` for an unknown type. -/
def dispatch_payload (cbs : Callbacks) (payload : Json) : List Event × Option PyErr :=
  match subscr payload "@type" with
  | .error e => ([], some e)
  | .ok t =>
    if t.eqStr "OrderBookAgg" then
      if cbs.order_book_registered then
        match subscr payload "current_order_id" with
        | .error e => ([], some e)
        | .ok oid =>
          match subscr payload "trade_pair" with
          | .error e => ([], some e)
          | .ok pair =>
            match py_dict_get payload "buy_levels" with
            | .error e => ([], some e)
            | .ok buy =>
              match py_dict_get payload "sell_levels" with
              | .error e => ([], some e)
              | .ok sell => ([.schedOrderBook oid pair buy sell], none)
      else ([], none)
    else if t.eqStr "AnonymousTrade" then
      if cbs.trades_registered then
        match subscr payload "time" with
        | .error e => ([], some e)
        | .ok timev =>
          match pyIndex0 timev with
          | .error e => ([], some e)
          | .ok t0 =>
            match pyTimestampArg t0 with
            | .error e => ([], some e)
            | .ok ti =>
              match utcfromtimestamp ti with
              | .error e => ([], some e)
              | .ok ts =>
                match subscr payload "current_order_id" with
                | .error e => ([], some e)
                | .ok oid =>
                  match subscr payload "trade_pair" with
                  | .error e => ([], some e)
                  | .ok pair =>
                    match subscr payload "amount" with
                    | .error e => ([], some e)
                    | .ok av =>
                      match py_Decimal av with
                      | .error e => ([], some e)
                      | .ok amount =>
                        match subscr payload "price" with
                        | .error e => ([], some e)
                        | .ok pv =>
                          match py_Decimal pv with
                          | .error e => ([], some e)
                          | .ok price =>
                            ([.schedTrades ts oid pair amount price], none)
      else ([], none)
    else ([], some .unsupportedMessageType)

/-- The body of one `reader_loop` iteration after a frame has been decoded
(the `try` suite): category lookup, broadcast check, `data` extraction, the
awaited market-data call, then typed dispatch.  Returns the callback events
in program order and the exception (if any) escaping the suite. -/
def reader_body (cbs : Callbacks) (msg : Json) : List Event × Option PyErr :=
  match subscr msg "response_type" with
  | .error e => ([], some e)
  | .ok rt =>
    match serverMessageType_lookup rt with
    | .error e => ([], some e)
    | .ok mt =>
      if mt ≠ .BROADCAST then ([], some .unsupportedMessageType)
      else
        match subscr msg "data" with
        | .error e => ([], some e)
        | .ok payload =>
          match cbs.market_data with
          | none => dispatch_payload cbs payload
          | some f =>
            match f payload with
            | some e => ([.marketData payload], some e)
            | none =>
              ((Event.marketData payload) :: (dispatch_payload cbs payload).1,
                (dispatch_payload cbs payload).2)

/-- Exception classes caught by the `except (KeyError, ValueError,
exceptions.UnsupportedMessageType)` clause.  `json.JSONDecodeError` is a
`ValueError` subclass; `decimal.InvalidOperation` is not. -/
def caught_by_decode_handler : PyErr → Bool
  | .keyError => true
  | .valueError => true
  | .jsonDecodeError => true
  | .unsupportedMessageType => true
  | _ => false

/-- The `except` clause of `reader_loop`: a caught exception is replaced by
the generic `CryptologyError('failed to decode data')`; any other exception
propagates unchanged. -/
def wrap_decode_errors : Option PyErr → Option PyErr
  | some e =>
      some (if caught_by_decode_handler e then .cryptologyError "failed to decode data" else e)
  | none => none

/-- One `reader_loop` iteration on a decoded message: the `try` suite with
its `except` wrapping applied to the escaping exception. -/
def process_msg (cbs : Callbacks) (msg : Json) : List Event × Option PyErr :=
  ((reader_body cbs msg).1, wrap_decode_errors (reader_body cbs msg).2)

/-- The observable result of running the read loop over a frame stream:
the callback events in program order, the `ensure_future` tasks scheduled
and still pending (never awaited by the loop), and the exception that
terminated the loop (`none` only for the model artifact of the finite
stream running out). -/
structure RunOutcome where
  events : List Event
  pending : List Event
  error : Option PyErr

/-- `reader_loop`: receive a frame, decode it (failures propagate,
uncaught), process the message (decode failures wrapped by the `except`
clause), accumulate events and scheduled-but-pending tasks, and repeat
until an exception terminates the loop. -/
def reader_loop (cbs : Callbacks) : List WSMessage → List Event → List Event → RunOutcome
  | [], evs, pend => ⟨evs, pend, none⟩
  | m :: rest, evs, pend =>
    match receive_msg m with
    | .error e => ⟨evs, pend, some e⟩
    | .ok msg =>
      match process_msg cbs msg with
      | (mevs, some e) =>
          ⟨evs ++ mevs, pend ++ mevs.filter Event.isScheduled, some e⟩
      | (mevs, none) =>
          reader_loop cbs rest (evs ++ mevs) (pend ++ mevs.filter Event.isScheduled)

/-- `run`: connection setup is handed to the session collaborator; then the
read loop runs from an empty trace, and its terminal exception is the entry
point's outcome. -/
def run (cbs : Callbacks) (frames : List WSMessage) : RunOutcome :=
  reader_loop cbs frames [] []

/-! ### Concrete fixtures -/

/-- A market-data callback that returns normally on every payload. -/
def mdNop : Json → Option PyErr := fun _ => none

/-- No callbacks registered. -/
def cbsNone : Callbacks := ⟨none, false, false⟩

/-- Only the trades callback registered. -/
def cbsTrades : Callbacks := ⟨none, false, true⟩

/-- Only the order-book callback registered. -/
def cbsOrderBook : Callbacks := ⟨none, true, false⟩

/-- All three callbacks registered; the market-data one returns normally. -/
def cbsAll : Callbacks := ⟨some mdNop, true, true⟩

/-- Only a market-data callback, and it raises `e` on every payload. -/
def cbsRaise (e : PyErr) : Callbacks := ⟨some (fun _ => some e), false, false⟩

/-- A text frame around a payload string. -/
def textFrame (s : String) : WSMessage := ⟨.TEXT, s, 0, ""⟩

/-- The design document's concrete `AnonymousTrade` scenario envelope. -/
def tradeWire : String :=
  "\x7b\"response_type\":\"BROADCAST\",\"data\":\x7b\"@type\":\"AnonymousTrade\",\"time\":[1700000000],\"current_order_id\":42,\"trade_pair\":\"BTC_USD\",\"amount\":\"1.5\",\"price\":\"30000.25\"\x7d\x7d"

/-- An `OrderBookAgg` envelope with both level maps absent. -/
def orderBookNoLevelsWire : String :=
  "\x7b\"response_type\":\"BROADCAST\",\"data\":\x7b\"@type\":\"OrderBookAgg\",\"current_order_id\":7,\"trade_pair\":\"BTC_USD\"\x7d\x7d"

/-- An `OrderBookAgg` envelope with both level maps present. -/
def orderBookWithLevelsWire : String :=
  "\x7b\"response_type\":\"BROADCAST\",\"data\":\x7b\"@type\":\"OrderBookAgg\",\"current_order_id\":7,\"trade_pair\":\"BTC_USD\",\"buy_levels\":\x7b\"100\":\"2\"\x7d,\"sell_levels\":\x7b\"101\":\"3\"\x7d\x7d\x7d"

/-- An `AnonymousTrade` envelope whose `amount` is not a valid decimal
string. -/
def badAmountWire : String :=
  "\x7b\"response_type\":\"BROADCAST\",\"data\":\x7b\"@type\":\"AnonymousTrade\",\"time\":[1700000000],\"current_order_id\":42,\"trade_pair\":\"BTC_USD\",\"amount\":\"abc\",\"price\":\"30000.25\"\x7d\x7d"

/-- A broadcast envelope missing the `data` key. -/
def noDataWire : String :=
  "\x7b\"response_type\":\"BROADCAST\"\x7d"

/-- An envelope whose `response_type` is not a known category. -/
def nonBroadcastWire : String :=
  "\x7b\"response_type\":\"FOO\",\"data\":\x7b\"@type\":\"OrderBookAgg\"\x7d\x7d"

/-- A broadcast envelope with an unknown `data['@type']`. -/
def unknownTypeWire : String :=
  "\x7b\"response_type\":\"BROADCAST\",\"data\":\x7b\"@type\":\"Mystery\",\"x\":1\x7d\x7d"

/-- A close frame with a concrete code and reason. -/
def closeFrame : WSMessage := ⟨.CLOSE, "", 1006, "abnormal closure"⟩

/-- The market-data callback, when registered, returns normally on `p`. -/
def md_ok (cbs : Callbacks) (p : Json) : Prop :=
  ∀ f, cbs.market_data = some f → f p = none

/-- The awaited market-data call event emitted for payload `p`: one event
when a callback is registered, none otherwise. -/
def mdEvents (cbs : Callbacks) (p : Json) : List Event :=
  match cbs.market_data with
  | none => []
  | some _ => [.marketData p]

/-! ## Theorems -/

/-- Characterization of Euclidean division by a positive constant. -/
theorem ediv_char (a b : Int) (h : 0 < b) :
    b * a.ediv b + a.emod b = a ∧ 0 ≤ a.emod b ∧ a.emod b < b :=
  ⟨Int.ediv_add_emod a b, Int.emod_nonneg a (by omega), Int.emod_lt_of_pos a h⟩

/-- Bounds and decomposition identities of the civil-date components. -/
theorem cfd_bounds (z : Int) :
    z + 719468 = 146097 * cfdEra z + cfdDoe z ∧ 0 ≤ cfdDoe z ∧ cfdDoe z < 146097 ∧
    0 ≤ cfdC z ∧ cfdC z ≤ 3 ∧ cfdDoe z = 36524 * cfdC z + cfdDoc z ∧
    0 ≤ cfdDoc z ∧ cfdDoc z ≤ 36524 ∧
    0 ≤ cfdQ z ∧ cfdQ z ≤ 24 ∧ cfdDoc z = 1461 * cfdQ z + cfdDoq z ∧
    0 ≤ cfdDoq z ∧ cfdDoq z ≤ 1460 ∧
    0 ≤ cfdYq z ∧ cfdYq z ≤ 3 ∧ cfdDoq z = 365 * cfdYq z + cfdDoy z ∧
    0 ≤ cfdDoy z ∧ cfdDoy z ≤ 365 := by
  have c1 := ediv_char (z + 719468) 146097 (by norm_num)
  have c2 := ediv_char (cfdDoe z) 36524 (by norm_num)
  have c3 := ediv_char (cfdDoc z) 1461 (by norm_num)
  have c4 := ediv_char (cfdDoq z) 365 (by norm_num)
  have h1 : cfdEra z = (z + 719468).ediv 146097 := rfl
  have h2 : cfdDoe z = (z + 719468).emod 146097 := rfl
  have h3 : cfdC z = min ((cfdDoe z).ediv 36524) 3 := rfl
  have h4 : cfdDoc z = cfdDoe z - 36524 * cfdC z := rfl
  have h5 : cfdQ z = (cfdDoc z).ediv 1461 := rfl
  have h6 : cfdDoq z = (cfdDoc z).emod 1461 := rfl
  have h7 : cfdYq z = min ((cfdDoq z).ediv 365) 3 := rfl
  have h8 : cfdDoy z = cfdDoq z - 365 * cfdYq z := rfl
  omega

/-- The year-of-era's quotient by 4 counts century-quadrennia. -/
theorem cfdYoe_div4 (z : Int) : (cfdYoe z).ediv 4 = 25 * cfdC z + cfdQ z := by
  have hb := cfd_bounds z
  have c5 := ediv_char (cfdYoe z) 4 (by norm_num)
  have h1 : cfdYoe z = 100 * cfdC z + 4 * cfdQ z + cfdYq z := rfl
  omega

/-- The year-of-era's quotient by 100 is the century. -/
theorem cfdYoe_div100 (z : Int) : (cfdYoe z).ediv 100 = cfdC z := by
  have hb := cfd_bounds z
  have c6 := ediv_char (cfdYoe z) 100 (by norm_num)
  have h1 : cfdYoe z = 100 * cfdC z + 4 * cfdQ z + cfdYq z := rfl
  omega

/-- Day-of-era reconstruction from the year-of-era and day-of-year. -/
theorem cfdYoe_sum (z : Int) :
    0 ≤ cfdYoe z ∧ cfdYoe z ≤ 399 ∧
    365 * cfdYoe z + (cfdYoe z).ediv 4 - (cfdYoe z).ediv 100 + cfdDoy z = cfdDoe z := by
  have hb := cfd_bounds z
  have h4 := cfdYoe_div4 z
  have h100 := cfdYoe_div100 z
  have h1 : cfdYoe z = 100 * cfdC z + 4 * cfdQ z + cfdYq z := rfl
  omega

/-- Month/day round trip: the March-based month index and day-of-year are
recovered from the civil month and day. -/
theorem cfd_month (z : Int) :
    0 ≤ cfdMp z ∧ cfdMp z ≤ 11 ∧
    (cfdM z + 9).emod 12 = cfdMp z ∧
    (153 * cfdMp z + 2).ediv 5 + cfdD z - 1 = cfdDoy z := by
  have hb := cfd_bounds z
  have c7 := ediv_char (5 * cfdDoy z + 2) 153 (by norm_num)
  have c8 := ediv_char (cfdM z + 9) 12 (by norm_num)
  have hmp : cfdMp z = (5 * cfdDoy z + 2).ediv 153 := rfl
  have hd : cfdD z = cfdDoy z - (153 * cfdMp z + 2).ediv 5 + 1 := rfl
  have hm : cfdM z = cfdMp z + (if cfdMp z < 10 then 3 else -9) := rfl
  by_cases h : cfdMp z < 10
  · rw [if_pos h] at hm
    omega
  · rw [if_neg h] at hm
    omega

/-- Evaluation of `daysFromCivil` on an era/year-of-era decomposition. -/
theorem daysFromCivil_formula (era yoe m d : Int)
    (h0 : 0 ≤ yoe) (h1 : yoe ≤ 399) :
    daysFromCivil (era * 400 + yoe + (if m ≤ 2 then 1 else 0)) m d
      = era * 146097 + (365 * yoe + yoe.ediv 4 - yoe.ediv 100
        + ((153 * ((m + 9).emod 12) + 2).ediv 5 + d - 1)) - 719468 := by
  simp only [daysFromCivil]
  have e0 : era * 400 + yoe + (if m ≤ 2 then 1 else 0) - (if m ≤ 2 then 1 else 0)
      = era * 400 + yoe := by split_ifs <;> ring
  rw [e0]
  have e1 : (era * 400 + yoe).ediv 400 = era := by
    have := ediv_char (era * 400 + yoe) 400 (by norm_num)
    omega
  rw [e1]
  have e2 : era * 400 + yoe - era * 400 = yoe := by ring
  rw [e2]
  ring_nf

/-- The civil-date conversion is a right inverse of the independent
day-count function. -/
theorem daysFromCivil_cfd (z : Int) : daysFromCivil (cfdY z) (cfdM z) (cfdD z) = z := by
  have hsum := cfdYoe_sum z
  have hmonth := cfd_month z
  have hb := cfd_bounds z
  have hy : cfdY z = cfdEra z * 400 + cfdYoe z + (if cfdM z ≤ 2 then 1 else 0) := rfl
  rw [hy, daysFromCivil_formula _ _ _ _ hsum.1 hsum.2.1, hmonth.2.2.1]
  omega

/-- Calendar round trip: converting a day count to a Gregorian date and
back is the identity. -/
theorem daysFromCivil_civilFromDays (z : Int) :
    daysFromCivil (civilFromDays z).1 (civilFromDays z).2.1 (civilFromDays z).2.2 = z :=
  daysFromCivil_cfd z

/-- `utcfromtimestamp` is exact: the produced calendar datetime denotes
precisely the input count of seconds since the Unix epoch. -/
theorem utcfromtimestamp_exact (t : Int) (dt : PyDateTime)
    (h : utcfromtimestamp t = .ok dt) : secondsSinceEpoch dt = t := by
  unfold utcfromtimestamp at h
  dsimp only at h
  split_ifs at h with hy
  · have hdt : dt = ⟨(civilFromDays (t.ediv 86400)).1, (civilFromDays (t.ediv 86400)).2.1,
        (civilFromDays (t.ediv 86400)).2.2, (t.emod 86400).ediv 3600,
        ((t.emod 86400).emod 3600).ediv 60, (t.emod 86400).emod 60⟩ := by
      cases h
      rfl
    subst hdt
    show daysFromCivil (civilFromDays (t.ediv 86400)).1 (civilFromDays (t.ediv 86400)).2.1
        (civilFromDays (t.ediv 86400)).2.2 * 86400
      + (t.emod 86400).ediv 3600 * 3600 + ((t.emod 86400).emod 3600).ediv 60 * 60
      + (t.emod 86400).emod 60 = t
    rw [daysFromCivil_civilFromDays]
    have c1 := ediv_char t 86400 (by norm_num)
    have c2 := ediv_char (t.emod 86400) 3600 (by norm_num)
    have c3 := ediv_char ((t.emod 86400).emod 3600) 60 (by norm_num)
    have c4 := ediv_char (t.emod 86400) 60 (by norm_num)
    omega

/-- `spanDigits` consumes an all-digit list whole. -/
theorem spanDigits_all (a : List Char) (ha : ∀ c ∈ a, c.isDigit) :
    spanDigits a = (a, []) := by
  induction a with
  | nil => rfl
  | cons c r ih =>
      have hc : c.isDigit := ha c (by simp)
      have ih2 := ih (fun x hx => ha x (by simp [hx]))
      simp only [spanDigits, hc, if_true, ih2]

/-- `spanDigits` splits exactly at the first non-digit. -/
theorem spanDigits_append (a : List Char) (c : Char) (r : List Char)
    (ha : ∀ x ∈ a, x.isDigit) (hc : ¬ c.isDigit) :
    spanDigits (a ++ c :: r) = (a, c :: r) := by
  induction a with
  | nil => simp [spanDigits, hc]
  | cons x xs ih =>
      have hx : x.isDigit := ha x (by simp)
      have ih2 := ih (fun y hy => ha y (by simp [hy]))
      simp only [List.cons_append, spanDigits, hx, if_true, List.append_eq, ih2]

/-- The digit-accumulator invariant. -/
theorem digitsToNatAux_eq (l : List Char) :
    ∀ acc : Nat, digitsToNatAux acc l = acc * 10 ^ l.length + digitsToNat l := by
  induction l with
  | nil =>
      intro acc
      show acc = acc * 10 ^ 0 + digitsToNat []
      show acc = acc * 10 ^ 0 + 0
      ring
  | cons c r ih =>
      intro acc
      show digitsToNatAux (10 * acc + (c.toNat - 48)) r
        = acc * 10 ^ (r.length + 1) + digitsToNat (c :: r)
      have h2 : digitsToNat (c :: r) = digitsToNatAux (10 * 0 + (c.toNat - 48)) r := rfl
      rw [ih, h2, ih]
      ring

/-- Positional value of concatenated digit strings. -/
theorem digitsToNat_append (a b : List Char) :
    digitsToNat (a ++ b) = digitsToNat a * 10 ^ b.length + digitsToNat b := by
  have h : ∀ acc, digitsToNatAux acc (a ++ b) = digitsToNatAux (digitsToNatAux acc a) b := by
    induction a with
    | nil => intro acc; rfl
    | cons c r ih => intro acc; exact ih _
  show digitsToNatAux 0 (a ++ b) = _
  rw [h 0, digitsToNatAux_eq b]
  rfl

/-- A digit is not the minus sign. -/
theorem isDigit_ne_minus (c : Char) (h : c.isDigit) : c ≠ '-' := by
  intro h2
  subst h2
  exact absurd h (by decide)

/-- A digit is not the plus sign. -/
theorem isDigit_ne_plus (c : Char) (h : c.isDigit) : c ≠ '+' := by
  intro h2
  subst h2
  exact absurd h (by decide)

/-- The unsigned decimal-literal body of `digits.digits` parses to the
concatenated digit value with a fractional-length exponent. -/
theorem parseDecUnsigned_point (a b : List Char)
    (ha : ∀ c ∈ a, c.isDigit) (hb : ∀ c ∈ b, c.isDigit) (hbne : b ≠ []) :
    parseDecUnsigned (a ++ '.' :: b)
      = some (digitsToNat (a ++ b), -(b.length : Int), []) := by
  unfold parseDecUnsigned
  rw [spanDigits_append a '.' b ha (by decide)]
  simp only [spanDigits_all b hb]
  rw [if_neg (by simp [hbne])]

/-- A plain `digits.digits` decimal literal parses to its exact coefficient
and exponent. -/
theorem parseDecString_point (a b : List Char)
    (ha : ∀ c ∈ a, c.isDigit) (hb : ∀ c ∈ b, c.isDigit)
    (hane : a ≠ []) (hbne : b ≠ []) :
    parseDecString (a ++ '.' :: b)
      = some ⟨(digitsToNat (a ++ b) : Int), -(b.length : Int)⟩ := by
  obtain ⟨c, a2, rfl⟩ : ∃ c a2, a = c :: a2 := by
    cases a with
    | nil => exact absurd rfl hane
    | cons c a2 => exact ⟨c, a2, rfl⟩
  have hc : c.isDigit := ha c (by simp)
  show parseDecString (c :: (a2 ++ '.' :: b)) = _
  unfold parseDecString
  change (if c = '-' then parseDecSigned (-1) (a2 ++ '.' :: b)
      else if c = '+' then parseDecSigned 1 (a2 ++ '.' :: b)
      else parseDecSigned 1 (c :: (a2 ++ '.' :: b))) = _
  rw [if_neg (isDigit_ne_minus c hc), if_neg (isDigit_ne_plus c hc)]
  unfold parseDecSigned
  rw [show c :: (a2 ++ '.' :: b) = (c :: a2) ++ '.' :: b from rfl,
    parseDecUnsigned_point (c :: a2) b ha hb hbne]
  show some (Dec.mk (1 * (digitsToNat (c :: a2 ++ b) : Int)) (-(b.length : Int) + 0))
      = some (Dec.mk (digitsToNat (c :: a2 ++ b) : Int) (-(b.length : Int)))
  rw [one_mul, add_zero]

/-- The exact rational value of a nonnegative fixed-point decimal. -/
theorem Dec_toRat_frac (n : Nat) (k : Nat) :
    Dec.toRat ⟨(n : Int), -(k : Int)⟩ = (n : ℚ) / 10 ^ k := by
  show ((n : Int) : ℚ) * (10 : ℚ) ^ (-(k : Int)) = (n : ℚ) / 10 ^ k
  rw [zpow_neg, zpow_natCast]
  push_cast
  ring

/-- The exact value of a parsed `digits.digits` literal is integer part
plus fraction — never a floating-point approximation. -/
theorem Dec_toRat_point (a b : List Char) :
    Dec.toRat ⟨(digitsToNat (a ++ b) : Int), -(b.length : Int)⟩
      = (digitsToNat a : ℚ) + (digitsToNat b : ℚ) / 10 ^ b.length := by
  rw [Dec_toRat_frac, digitsToNat_append]
  have h10 : (10 : ℚ) ^ b.length ≠ 0 := by positivity
  push_cast
  field_simp

/-! ### Router and read-loop reduction lemmas -/


theorem serverMessageType_lookup_err (v : Json) (e : PyErr)
    (h : serverMessageType_lookup v = .error e) : e = .keyError := by
  cases v with
  | str s =>
      dsimp only [serverMessageType_lookup] at h
      split_ifs at h
      all_goals simp_all
  | null => injection h with h2; exact h2.symm
  | bool b => injection h with h2; exact h2.symm
  | num n => injection h with h2; exact h2.symm
  | arr l => injection h with h2; exact h2.symm
  | obj l => injection h with h2; exact h2.symm

theorem receive_msg_data (m : WSMessage)
    (hk : CLOSE_MESSAGES.contains m.type = false) :
    receive_msg m = json_loads m.data := by
  obtain ⟨ty, da, cc, cr⟩ := m
  cases ty <;> first | rfl | exact Bool.noConfusion hk

theorem reader_loop_recv_err (cbs : Callbacks) (m : WSMessage) (rest : List WSMessage)
    (evs pend : List Event) (e : PyErr) (h : receive_msg m = .error e) :
    reader_loop cbs (m :: rest) evs pend = ⟨evs, pend, some e⟩ := by
  simp only [reader_loop, h]

theorem reader_loop_cons_err (cbs : Callbacks) (m : WSMessage) (rest : List WSMessage)
    (evs pend mevs : List Event) (msg : Json) (e : PyErr)
    (h : receive_msg m = .ok msg) (h2 : process_msg cbs msg = (mevs, some e)) :
    reader_loop cbs (m :: rest) evs pend
      = ⟨evs ++ mevs, pend ++ mevs.filter Event.isScheduled, some e⟩ := by
  simp only [reader_loop, h, h2]

theorem reader_loop_cons_ok (cbs : Callbacks) (m : WSMessage) (rest : List WSMessage)
    (evs pend mevs : List Event) (msg : Json)
    (h : receive_msg m = .ok msg) (h2 : process_msg cbs msg = (mevs, none)) :
    reader_loop cbs (m :: rest) evs pend
      = reader_loop cbs rest (evs ++ mevs) (pend ++ mevs.filter Event.isScheduled) := by
  simp only [reader_loop, h, h2]

theorem process_msg_nonbroadcast (cbs : Callbacks) (kvs : List (String × Json)) (v : Json)
    (hrt : pyGet kvs "response_type" = some v)
    (hnb : serverMessageType_lookup v ≠ .ok .BROADCAST) :
    process_msg cbs (.obj kvs) = ([], some (.cryptologyError "failed to decode data")) := by
  unfold process_msg reader_body
  simp only [subscr, hrt]
  cases hl : serverMessageType_lookup v with
  | error e =>
      have he : e = .keyError := serverMessageType_lookup_err v e hl
      subst he
      rfl
  | ok r =>
      have hr : r ≠ .BROADCAST := fun h => hnb (h ▸ hl)
      dsimp only []
      rw [if_pos hr]
      rfl

theorem reader_body_bc_nomd (cbs : Callbacks) (kvs : List (String × Json)) (payload : Json)
    (hrt : pyGet kvs "response_type" = some (.str "BROADCAST"))
    (hd : pyGet kvs "data" = some payload)
    (hmd : cbs.market_data = none) :
    reader_body cbs (.obj kvs) = dispatch_payload cbs payload := by
  unfold reader_body
  simp only [subscr, hrt, hd]
  rw [show serverMessageType_lookup (.str "BROADCAST") = .ok .BROADCAST from rfl]
  dsimp only []
  rw [if_neg (by simp), hmd]

theorem reader_body_bc_md (cbs : Callbacks) (kvs : List (String × Json)) (payload : Json)
    (f : Json → Option PyErr)
    (hrt : pyGet kvs "response_type" = some (.str "BROADCAST"))
    (hd : pyGet kvs "data" = some payload)
    (hmd : cbs.market_data = some f) (hok : f payload = none) :
    reader_body cbs (.obj kvs)
      = (Event.marketData payload :: (dispatch_payload cbs payload).1,
         (dispatch_payload cbs payload).2) := by
  unfold reader_body
  simp only [subscr, hrt, hd]
  rw [show serverMessageType_lookup (.str "BROADCAST") = .ok .BROADCAST from rfl]
  dsimp only []
  rw [if_neg (by simp), hmd]
  dsimp only []
  rw [hok]

theorem reader_body_bc_raise (cbs : Callbacks) (kvs : List (String × Json)) (payload : Json)
    (f : Json → Option PyErr) (e : PyErr)
    (hrt : pyGet kvs "response_type" = some (.str "BROADCAST"))
    (hd : pyGet kvs "data" = some payload)
    (hmd : cbs.market_data = some f) (hraise : f payload = some e) :
    reader_body cbs (.obj kvs) = ([.marketData payload], some e) := by
  unfold reader_body
  simp only [subscr, hrt, hd]
  rw [show serverMessageType_lookup (.str "BROADCAST") = .ok .BROADCAST from rfl]
  dsimp only []
  rw [if_neg (by simp), hmd]
  dsimp only []
  rw [hraise]

theorem dispatch_payload_unknown (cbs : Callbacks) (pkvs : List (String × Json)) (tv : Json)
    (ht : pyGet pkvs "@type" = some tv)
    (h1 : tv.eqStr "OrderBookAgg" = false) (h2 : tv.eqStr "AnonymousTrade" = false) :
    dispatch_payload cbs (.obj pkvs) = ([], some .unsupportedMessageType) := by
  unfold dispatch_payload
  simp only [subscr, ht, h1, h2]
  simp

theorem dispatch_payload_events (cbs : Callbacks) (p : Json) :
    (dispatch_payload cbs p).1 = []
      ∨ ∃ ev, (dispatch_payload cbs p).1 = [ev]
          ∧ ev.isScheduled = true ∧ ev.isMarketData = false := by
  unfold dispatch_payload
  repeat' split
  all_goals simp [Event.isScheduled, Event.isMarketData]

theorem reader_loop_pend_indep (cbs : Callbacks) (l : List WSMessage) :
    ∀ evs pend pend2,
      (reader_loop cbs l evs pend).events = (reader_loop cbs l evs pend2).events
        ∧ (reader_loop cbs l evs pend).error = (reader_loop cbs l evs pend2).error := by
  induction l with
  | nil => intro evs pend pend2; exact ⟨rfl, rfl⟩
  | cons m rest ih =>
      intro evs pend pend2
      cases h : receive_msg m with
      | error e =>
          rw [reader_loop_recv_err cbs m rest evs pend e h,
              reader_loop_recv_err cbs m rest evs pend2 e h]
          exact ⟨rfl, rfl⟩
      | ok msg =>
          rcases hp : process_msg cbs msg with ⟨mevs, err⟩
          cases err with
          | some e =>
              rw [reader_loop_cons_err cbs m rest evs pend mevs msg e h hp,
                  reader_loop_cons_err cbs m rest evs pend2 mevs msg e h hp]
              exact ⟨rfl, rfl⟩
          | none =>
              rw [reader_loop_cons_ok cbs m rest evs pend mevs msg h hp,
                  reader_loop_cons_ok cbs m rest evs pend2 mevs msg h hp]
              exact ih _ _ _

/-! ### Claim theorems -/


set_option maxRecDepth 40000

/-- C1 evidence: for the OrderBookAgg envelope with absent `buy_levels` and
`sell_levels`, the order-book callback is scheduled exactly once with
`current_order_id` and `trade_pair` unchanged, but the level arguments are
the built-in `dict` class object (`payload.get('buy_levels', dict)`), not an
empty map as the specification requires. -/
theorem orderBook_absent_levels_pass_dict_class :
    run cbsOrderBook [textFrame orderBookNoLevelsWire]
      = ⟨[.schedOrderBook (.num 7) (.str "BTC_USD") .dictType .dictType],
         [.schedOrderBook (.num 7) (.str "BTC_USD") .dictType .dictType], none⟩ ∧
    PyVal.dictType ≠ PyVal.json (.obj []) :=
  ⟨rfl, fun h => PyVal.noConfusion h⟩

/-- C3: a close-type frame terminates the loop with `ConnectionClosed`
carrying the frame's close code and reason; this is not a decode error (not
in the caught decode-failure classes, and not the JSON decode error). -/
theorem close_frame_terminates_with_connectionClosed (cbs : Callbacks) (m : WSMessage)
    (rest : List WSMessage) (h : CLOSE_MESSAGES.contains m.type = true) :
    (∀ evs pend, reader_loop cbs (m :: rest) evs pend
        = ⟨evs, pend, some (.connectionClosed m.close_code m.close_reason)⟩) ∧
    run cbs (m :: rest) = ⟨[], [], some (.connectionClosed m.close_code m.close_reason)⟩ ∧
    caught_by_decode_handler (.connectionClosed m.close_code m.close_reason) = false ∧
    PyErr.connectionClosed m.close_code m.close_reason ≠ PyErr.jsonDecodeError := by
  have hrecv : receive_msg m = .error (.connectionClosed m.close_code m.close_reason) := by
    unfold receive_msg
    rw [if_pos h]
    rfl
  exact ⟨fun evs pend => reader_loop_recv_err cbs m rest evs pend _ hrecv,
    reader_loop_recv_err cbs m rest [] [] _ hrecv, rfl, fun hc => PyErr.noConfusion hc⟩

/-- C3 witness at the concrete close frame. -/
theorem close_frame_witness :
    run cbsNone [closeFrame] = ⟨[], [], some (.connectionClosed 1006 "abnormal closure")⟩ :=
  (close_frame_terminates_with_connectionClosed cbsNone closeFrame [] rfl).2.1

/-- C4: a data frame whose payload is not valid JSON terminates the loop
with the JSON decode error itself (the classified malformed-message error),
processing no event from this or any later frame, and `run` surfaces the
same error. -/
theorem malformed_json_is_session_fatal (cbs : Callbacks) (m : WSMessage)
    (rest : List WSMessage)
    (hk : CLOSE_MESSAGES.contains m.type = false)
    (hbad : json_loads m.data = .error .jsonDecodeError) :
    (∀ evs pend, reader_loop cbs (m :: rest) evs pend = ⟨evs, pend, some .jsonDecodeError⟩) ∧
    run cbs (m :: rest) = ⟨[], [], some .jsonDecodeError⟩ := by
  have hrecv : receive_msg m = .error .jsonDecodeError := by
    rw [receive_msg_data m hk, hbad]
  exact ⟨fun evs pend => reader_loop_recv_err cbs m rest evs pend _ hrecv,
    reader_loop_recv_err cbs m rest [] [] _ hrecv⟩

/-- C4 witness at a concrete malformed payload. -/
theorem malformed_json_witness :
    run cbsNone [textFrame "\x7b"] = ⟨[], [], some .jsonDecodeError⟩ :=
  (malformed_json_is_session_fatal cbsNone (textFrame "\x7b") [] rfl rfl).2

/-- C6: an envelope whose `response_type` does not resolve to the broadcast
category — an unknown name or a known non-broadcast control category alike —
terminates the loop with the wrapped generic decode failure, and no callback
event is produced. -/
theorem non_broadcast_rejected (cbs : Callbacks) (m : WSMessage) (rest : List WSMessage)
    (kvs : List (String × Json)) (v : Json)
    (hk : CLOSE_MESSAGES.contains m.type = false)
    (hj : json_loads m.data = .ok (.obj kvs))
    (hrt : pyGet kvs "response_type" = some v)
    (hnb : serverMessageType_lookup v ≠ .ok .BROADCAST) :
    (∀ evs pend, reader_loop cbs (m :: rest) evs pend
        = ⟨evs, pend, some (.cryptologyError "failed to decode data")⟩) ∧
    run cbs (m :: rest) = ⟨[], [], some (.cryptologyError "failed to decode data")⟩ := by
  have hrecv : receive_msg m = .ok (.obj kvs) := by rw [receive_msg_data m hk, hj]
  have hp := process_msg_nonbroadcast cbs kvs v hrt hnb
  have hstep : ∀ evs pend, reader_loop cbs (m :: rest) evs pend
      = ⟨evs, pend, some (.cryptologyError "failed to decode data")⟩ := by
    intro evs pend
    have := reader_loop_cons_err cbs m rest evs pend [] (.obj kvs) _ hrecv hp
    simpa using this
  exact ⟨hstep, hstep [] []⟩

/-- C6 witness at the concrete unknown-category envelope. -/
theorem non_broadcast_witness :
    run cbsNone [textFrame nonBroadcastWire]
      = ⟨[], [], some (.cryptologyError "failed to decode data")⟩ :=
  (non_broadcast_rejected cbsNone (textFrame nonBroadcastWire) []
    [("response_type", .str "FOO"), ("data", .obj [("@type", .str "OrderBookAgg")])]
    (.str "FOO") rfl rfl rfl (fun hc => Except.noConfusion hc)).2

/-- C5 counterexample: a malformed decimal string for `amount` does not fold
into the generic decode failure: the loop terminates with
`decimal.InvalidOperation` itself, which is outside the caught
`(KeyError, ValueError, UnsupportedMessageType)` classes. -/
theorem malformed_decimal_not_folded_cex :
    (run cbsTrades [textFrame badAmountWire]).error = some .invalidOperation ∧
    (run cbsTrades [textFrame badAmountWire]).error
      ≠ some (.cryptologyError "failed to decode data") ∧
    caught_by_decode_handler .invalidOperation = false := by
  refine ⟨rfl, ?_, rfl⟩
  intro hc
  rw [show (run cbsTrades [textFrame badAmountWire]).error = some .invalidOperation from rfl] at hc
  exact absurd hc (by decide)

/-- C10 counterexample: a market-data callback that raises the library's
`UnsupportedMessageType` — a class other than `KeyError`/`ValueError` — does
not propagate unchanged: the loop replaces it with the generic
`CryptologyError('failed to decode data')`. -/
theorem callback_exception_not_propagated_cex :
    (run (cbsRaise .unsupportedMessageType) [textFrame orderBookNoLevelsWire]).error
      = some (.cryptologyError "failed to decode data") ∧
    PyErr.unsupportedMessageType ≠ PyErr.keyError ∧
    PyErr.unsupportedMessageType ≠ PyErr.valueError ∧
    (run (cbsRaise .unsupportedMessageType) [textFrame orderBookNoLevelsWire]).error
      ≠ some .unsupportedMessageType := by
  refine ⟨rfl, by decide, by decide, ?_⟩
  intro hc
  rw [show (run (cbsRaise .unsupportedMessageType) [textFrame orderBookNoLevelsWire]).error
      = some (.cryptologyError "failed to decode data") from rfl] at hc
  exact absurd hc (by decide)



/-- C5 amended: a missing required key (`data` absent from a broadcast
envelope) is a `KeyError`-class failure folded, like
`UnsupportedMessageType`, into the generic decode failure and is
session-fatal; but a malformed decimal field raises
`decimal.InvalidOperation`, which is outside the caught classes and
propagates as itself (still session-fatal), not wrapped. -/
theorem decode_failure_folding_amended (cbs : Callbacks) (m : WSMessage)
    (rest : List WSMessage) (kvs : List (String × Json))
    (hk : CLOSE_MESSAGES.contains m.type = false)
    (hj : json_loads m.data = .ok (.obj kvs))
    (hrt : pyGet kvs "response_type" = some (.str "BROADCAST"))
    (hd : pyGet kvs "data" = none) :
    (∀ evs pend, reader_loop cbs (m :: rest) evs pend
        = ⟨evs, pend, some (.cryptologyError "failed to decode data")⟩) ∧
    (∀ rest2 evs pend, reader_loop cbsTrades (textFrame badAmountWire :: rest2) evs pend
        = ⟨evs, pend, some .invalidOperation⟩) ∧
    caught_by_decode_handler .keyError = true ∧
    caught_by_decode_handler .unsupportedMessageType = true ∧
    caught_by_decode_handler .invalidOperation = false := by
  have hrecv : receive_msg m = .ok (.obj kvs) := by rw [receive_msg_data m hk, hj]
  have hp : process_msg cbs (.obj kvs) = ([], some (.cryptologyError "failed to decode data")) := by
    unfold process_msg reader_body
    simp only [subscr, hrt, hd]
    rw [show serverMessageType_lookup (.str "BROADCAST") = .ok .BROADCAST from rfl]
    dsimp only []
    rw [if_neg (by simp)]
    rfl
  refine ⟨?_, ?_, rfl, rfl, rfl⟩
  · intro evs pend
    have := reader_loop_cons_err cbs m rest evs pend [] (.obj kvs) _ hrecv hp
    simpa using this
  · intro rest2 evs pend
    have := reader_loop_cons_err cbsTrades (textFrame badAmountWire) rest2 evs pend []
      _ .invalidOperation rfl rfl
    simpa using this

/-- C5 amended witness at the concrete envelope missing `data`. -/
theorem decode_failure_folding_witness :
    reader_loop cbsNone [textFrame noDataWire] [] []
      = ⟨[], [], some (.cryptologyError "failed to decode data")⟩ :=
  (decode_failure_folding_amended cbsNone (textFrame noDataWire) []
    [("response_type", .str "BROADCAST")] rfl rfl rfl rfl).1 [] []

/-- C7: a broadcast payload whose `@type` is neither `OrderBookAgg` nor
`AnonymousTrade` terminates the loop with the wrapped generic decode
failure; the only possible callback event for the envelope is the awaited
market-data call — nothing is scheduled for the order-book or trades
callbacks. -/
theorem unknown_payload_type_rejected (cbs : Callbacks) (m : WSMessage)
    (rest : List WSMessage) (kvs pkvs : List (String × Json)) (tv : Json)
    (hk : CLOSE_MESSAGES.contains m.type = false)
    (hj : json_loads m.data = .ok (.obj kvs))
    (hrt : pyGet kvs "response_type" = some (.str "BROADCAST"))
    (hd : pyGet kvs "data" = some (.obj pkvs))
    (ht : pyGet pkvs "@type" = some tv)
    (h1 : tv.eqStr "OrderBookAgg" = false) (h2 : tv.eqStr "AnonymousTrade" = false)
    (hmd : md_ok cbs (.obj pkvs)) :
    (∀ evs pend, reader_loop cbs (m :: rest) evs pend
        = ⟨evs ++ mdEvents cbs (.obj pkvs), pend,
           some (.cryptologyError "failed to decode data")⟩) ∧
    (∀ ev ∈ mdEvents cbs (.obj pkvs), ev.isScheduled = false) := by
  have hrecv : receive_msg m = .ok (.obj kvs) := by rw [receive_msg_data m hk, hj]
  have hdu := dispatch_payload_unknown cbs pkvs tv ht h1 h2
  have hp : process_msg cbs (.obj kvs)
      = (mdEvents cbs (.obj pkvs), some (.cryptologyError "failed to decode data")) := by
    cases hcb : cbs.market_data with
    | none =>
        unfold process_msg
        rw [reader_body_bc_nomd cbs kvs (.obj pkvs) hrt hd hcb, hdu]
        simp [mdEvents, hcb, wrap_decode_errors, caught_by_decode_handler]
    | some f =>
        have hok : f (.obj pkvs) = none := hmd f hcb
        unfold process_msg
        rw [reader_body_bc_md cbs kvs (.obj pkvs) f hrt hd hcb hok, hdu]
        simp [mdEvents, hcb, wrap_decode_errors, caught_by_decode_handler]
  constructor
  · intro evs pend
    have := reader_loop_cons_err cbs m rest evs pend (mdEvents cbs (.obj pkvs)) (.obj kvs)
      _ hrecv hp
    rw [this]
    have hfil : (mdEvents cbs (.obj pkvs)).filter Event.isScheduled = [] := by
      cases hcb : cbs.market_data <;> simp [mdEvents, hcb, Event.isScheduled]
    rw [hfil]
    simp
  · intro ev hev
    cases hcb : cbs.market_data with
    | none => simp [mdEvents, hcb] at hev
    | some f =>
        simp [mdEvents, hcb] at hev
        subst hev
        rfl

/-- C7 witness at the concrete unknown-`@type` envelope. -/
theorem unknown_payload_type_witness :
    reader_loop cbsAll [textFrame unknownTypeWire] [] []
      = ⟨[] ++ mdEvents cbsAll (.obj [("@type", .str "Mystery"), ("x", .num 1)]), [],
         some (.cryptologyError "failed to decode data")⟩ :=
  (unknown_payload_type_rejected cbsAll (textFrame unknownTypeWire) []
    [("response_type", .str "BROADCAST"), ("data", .obj [("@type", .str "Mystery"), ("x", .num 1)])]
    [("@type", .str "Mystery"), ("x", .num 1)] (.str "Mystery")
    rfl rfl rfl rfl rfl rfl rfl
    (fun f hf => by cases hf; rfl)).1 [] []



/-- Helper: the typed dispatch never emits an awaited market-data event. -/
theorem dispatch_payload_no_md (cbs : Callbacks) (p : Json) :
    (dispatch_payload cbs p).1.filter Event.isMarketData = [] := by
  rcases dispatch_payload_events cbs p with h | ⟨ev, hev, hsch, hmd⟩
  · rw [h]; rfl
  · rw [hev]; simp [hmd]

/-- Helper: every typed-dispatch event is an `ensure_future` hand-off, so
filtering for scheduled events keeps them all. -/
theorem dispatch_payload_all_sched (cbs : Callbacks) (p : Json) :
    (dispatch_payload cbs p).1.filter Event.isScheduled = (dispatch_payload cbs p).1 := by
  rcases dispatch_payload_events cbs p with h | ⟨ev, hev, hsch, hmd⟩
  · rw [h]; rfl
  · rw [hev]; simp [hsch]

/-- C8: on a broadcast envelope, a registered market-data callback is
awaited exactly once with the raw payload, at the head of the iteration's
events — before the `@type` dispatch, whatever that dispatch yields — and
when no market-data callback is registered the step is skipped without
error and the iteration is exactly the typed dispatch. -/
theorem marketdata_fire_first (cbs : Callbacks) (kvs : List (String × Json)) (payload : Json)
    (hrt : pyGet kvs "response_type" = some (.str "BROADCAST"))
    (hd : pyGet kvs "data" = some payload) :
    (∀ f, cbs.market_data = some f → f payload = none →
      process_msg cbs (.obj kvs)
        = (Event.marketData payload :: (dispatch_payload cbs payload).1,
           wrap_decode_errors (dispatch_payload cbs payload).2) ∧
      (Event.marketData payload :: (dispatch_payload cbs payload).1).filter Event.isMarketData
        = [Event.marketData payload]) ∧
    (cbs.market_data = none →
      process_msg cbs (.obj kvs)
        = ((dispatch_payload cbs payload).1,
           wrap_decode_errors (dispatch_payload cbs payload).2) ∧
      (dispatch_payload cbs payload).1.filter Event.isMarketData = []) := by
  constructor
  · intro f hf hok
    constructor
    · unfold process_msg
      rw [reader_body_bc_md cbs kvs payload f hrt hd hf hok]
    · have hfil := dispatch_payload_no_md cbs payload
      simp [List.filter_cons, Event.isMarketData, hfil]
  · intro hnone
    constructor
    · unfold process_msg
      rw [reader_body_bc_nomd cbs kvs payload hrt hd hnone]
    · exact dispatch_payload_no_md cbs payload

/-- C8 witness at the concrete OrderBookAgg envelope with all callbacks
registered. -/
theorem marketdata_fire_first_witness :
    process_msg cbsAll (.obj [("response_type", .str "BROADCAST"),
        ("data", .obj [("@type", .str "OrderBookAgg"), ("current_order_id", .num 7),
          ("trade_pair", .str "BTC_USD"),
          ("buy_levels", .obj [("100", .str "2")]), ("sell_levels", .obj [("101", .str "3")])])])
      = (Event.marketData (.obj [("@type", .str "OrderBookAgg"), ("current_order_id", .num 7),
          ("trade_pair", .str "BTC_USD"),
          ("buy_levels", .obj [("100", .str "2")]), ("sell_levels", .obj [("101", .str "3")])])
          :: (dispatch_payload cbsAll (.obj [("@type", .str "OrderBookAgg"),
            ("current_order_id", .num 7), ("trade_pair", .str "BTC_USD"),
            ("buy_levels", .obj [("100", .str "2")]), ("sell_levels", .obj [("101", .str "3")])])).1,
         wrap_decode_errors (dispatch_payload cbsAll (.obj [("@type", .str "OrderBookAgg"),
            ("current_order_id", .num 7), ("trade_pair", .str "BTC_USD"),
            ("buy_levels", .obj [("100", .str "2")]), ("sell_levels", .obj [("101", .str "3")])])).2) :=
  ((marketdata_fire_first cbsAll
    [("response_type", .str "BROADCAST"),
     ("data", .obj [("@type", .str "OrderBookAgg"), ("current_order_id", .num 7),
       ("trade_pair", .str "BTC_USD"),
       ("buy_levels", .obj [("100", .str "2")]), ("sell_levels", .obj [("101", .str "3")])])]
    (.obj [("@type", .str "OrderBookAgg"), ("current_order_id", .num 7),
      ("trade_pair", .str "BTC_USD"),
      ("buy_levels", .obj [("100", .str "2")]), ("sell_levels", .obj [("101", .str "3")])])
    rfl rfl).1 mdNop rfl rfl).1

/-- C9: order-book and trades callback activations are `ensure_future`
hand-offs: every typed-dispatch event is scheduled (never awaited), a
successful iteration passes straight on to the next frame with the new
tasks merely appended to the pending set, and the loop's subsequent events
and terminal error do not depend on the pending tasks at all — the loop
never waits for their completion. -/
theorem sched_callbacks_fire_and_forget (cbs : Callbacks) (m : WSMessage)
    (rest : List WSMessage) (kvs : List (String × Json)) (payload : Json)
    (hk : CLOSE_MESSAGES.contains m.type = false)
    (hj : json_loads m.data = .ok (.obj kvs))
    (hrt : pyGet kvs "response_type" = some (.str "BROADCAST"))
    (hd : pyGet kvs "data" = some payload)
    (hmd : md_ok cbs payload)
    (hdisp : (dispatch_payload cbs payload).2 = none) :
    (∀ ev ∈ (dispatch_payload cbs payload).1, ev.isScheduled = true) ∧
    (∀ evs pend, reader_loop cbs (m :: rest) evs pend
        = reader_loop cbs rest
            (evs ++ (mdEvents cbs payload ++ (dispatch_payload cbs payload).1))
            (pend ++ (dispatch_payload cbs payload).1)) ∧
    (∀ l evs pend pend2,
      (reader_loop cbs l evs pend).events = (reader_loop cbs l evs pend2).events ∧
      (reader_loop cbs l evs pend).error = (reader_loop cbs l evs pend2).error) := by
  have hrecv : receive_msg m = .ok (.obj kvs) := by rw [receive_msg_data m hk, hj]
  have hp : process_msg cbs (.obj kvs)
      = (mdEvents cbs payload ++ (dispatch_payload cbs payload).1, none) := by
    cases hcb : cbs.market_data with
    | none =>
        unfold process_msg
        rw [reader_body_bc_nomd cbs kvs payload hrt hd hcb]
        simp [mdEvents, hcb, hdisp, wrap_decode_errors]
    | some f =>
        have hok : f payload = none := hmd f hcb
        unfold process_msg
        rw [reader_body_bc_md cbs kvs payload f hrt hd hcb hok]
        simp [mdEvents, hcb, hdisp, wrap_decode_errors]
  refine ⟨?_, ?_, fun l evs pend pend2 => reader_loop_pend_indep cbs l evs pend pend2⟩
  · intro ev hev
    rcases dispatch_payload_events cbs payload with h | ⟨ev2, hev2, hsch, hmd2⟩
    · rw [h] at hev; cases hev
    · rw [hev2] at hev
      simp at hev
      subst hev
      exact hsch
  · intro evs pend
    have hstep := reader_loop_cons_ok cbs m rest evs pend
      (mdEvents cbs payload ++ (dispatch_payload cbs payload).1) (.obj kvs) hrecv hp
    rw [hstep]
    have hfil : (mdEvents cbs payload ++ (dispatch_payload cbs payload).1).filter Event.isScheduled
        = (dispatch_payload cbs payload).1 := by
      rw [List.filter_append, dispatch_payload_all_sched]
      have : (mdEvents cbs payload).filter Event.isScheduled = [] := by
        cases hcb : cbs.market_data <;> simp [mdEvents, hcb, Event.isScheduled]
      rw [this, List.nil_append]
    rw [hfil]

/-- C9 witness: after the concrete OrderBookAgg frame the loop moves on to
the remaining frames with the scheduled order-book task pending. -/
theorem sched_callbacks_witness :
    reader_loop cbsAll [textFrame orderBookWithLevelsWire, closeFrame] [] []
      = reader_loop cbsAll [closeFrame]
          ([] ++ (mdEvents cbsAll (.obj [("@type", .str "OrderBookAgg"),
              ("current_order_id", .num 7), ("trade_pair", .str "BTC_USD"),
              ("buy_levels", .obj [("100", .str "2")]), ("sell_levels", .obj [("101", .str "3")])])
            ++ (dispatch_payload cbsAll (.obj [("@type", .str "OrderBookAgg"),
              ("current_order_id", .num 7), ("trade_pair", .str "BTC_USD"),
              ("buy_levels", .obj [("100", .str "2")]), ("sell_levels", .obj [("101", .str "3")])])).1))
          ([] ++ (dispatch_payload cbsAll (.obj [("@type", .str "OrderBookAgg"),
              ("current_order_id", .num 7), ("trade_pair", .str "BTC_USD"),
              ("buy_levels", .obj [("100", .str "2")]), ("sell_levels", .obj [("101", .str "3")])])).1) :=
  (sched_callbacks_fire_and_forget cbsAll (textFrame orderBookWithLevelsWire) [closeFrame]
    [("response_type", .str "BROADCAST"),
     ("data", .obj [("@type", .str "OrderBookAgg"), ("current_order_id", .num 7),
       ("trade_pair", .str "BTC_USD"), ("buy_levels", .obj [("100", .str "2")]),
       ("sell_levels", .obj [("101", .str "3")])])]
    (.obj [("@type", .str "OrderBookAgg"), ("current_order_id", .num 7),
      ("trade_pair", .str "BTC_USD"), ("buy_levels", .obj [("100", .str "2")]),
      ("sell_levels", .obj [("101", .str "3")])])
    rfl rfl rfl rfl (fun f hf => by cases hf; rfl) rfl).2.1 [] []

/-- C10 amended: an exception raised by the awaited market-data callback is
replaced by the generic decode failure precisely when its class is
`KeyError`, `ValueError` (including `json.JSONDecodeError`), or the
library's `UnsupportedMessageType`; any other class terminates the loop
unchanged. -/
theorem callback_exception_classes (cbs : Callbacks) (m : WSMessage)
    (rest : List WSMessage) (kvs : List (String × Json)) (payload : Json)
    (f : Json → Option PyErr) (e : PyErr)
    (hk : CLOSE_MESSAGES.contains m.type = false)
    (hj : json_loads m.data = .ok (.obj kvs))
    (hrt : pyGet kvs "response_type" = some (.str "BROADCAST"))
    (hd : pyGet kvs "data" = some payload)
    (hf : cbs.market_data = some f) (he : f payload = some e) :
    (∀ evs pend, reader_loop cbs (m :: rest) evs pend
        = ⟨evs ++ [.marketData payload], pend,
           some (if caught_by_decode_handler e then .cryptologyError "failed to decode data"
                 else e)⟩) ∧
    (caught_by_decode_handler e = true ↔
      e = .keyError ∨ e = .valueError ∨ e = .jsonDecodeError ∨ e = .unsupportedMessageType) := by
  have hrecv : receive_msg m = .ok (.obj kvs) := by rw [receive_msg_data m hk, hj]
  have hp : process_msg cbs (.obj kvs)
      = ([.marketData payload],
         some (if caught_by_decode_handler e then .cryptologyError "failed to decode data"
               else e)) := by
    unfold process_msg
    rw [reader_body_bc_raise cbs kvs payload f e hrt hd hf he]
    rfl
  constructor
  · intro evs pend
    have := reader_loop_cons_err cbs m rest evs pend [.marketData payload] (.obj kvs) _ hrecv hp
    simpa [Event.isScheduled] using this
  · cases e <;> simp [caught_by_decode_handler]

/-- C10 amended witness: a callback raising a `RuntimeError`-class
exception terminates the loop with that exception unchanged. -/
theorem callback_exception_classes_witness :
    reader_loop (cbsRaise (.other "RuntimeError")) [textFrame orderBookNoLevelsWire] [] []
      = ⟨[] ++ [.marketData (.obj [("@type", .str "OrderBookAgg"),
            ("current_order_id", .num 7), ("trade_pair", .str "BTC_USD")])], [],
         some (if caught_by_decode_handler (.other "RuntimeError")
               then .cryptologyError "failed to decode data" else .other "RuntimeError")⟩ :=
  (callback_exception_classes (cbsRaise (.other "RuntimeError"))
    (textFrame orderBookNoLevelsWire) []
    [("response_type", .str "BROADCAST"),
     ("data", .obj [("@type", .str "OrderBookAgg"), ("current_order_id", .num 7),
       ("trade_pair", .str "BTC_USD")])]
    (.obj [("@type", .str "OrderBookAgg"), ("current_order_id", .num 7),
      ("trade_pair", .str "BTC_USD")])
    (fun _ => some (.other "RuntimeError")) (.other "RuntimeError")
    rfl rfl rfl rfl rfl rfl).1 [] []



/-- C2: `amount`/`price` decode to decimals exactly equal to their wire
strings — for any digit strings `a`/`b`, the literal `a.b` parses to the
exact rational integer-part-plus-fraction, never a binary-float
approximation; the timestamp is the exact UTC calendar time of `time[0]`
seconds since the epoch; and the design document's concrete envelope yields
exactly one scheduled trades-callback invocation with
`(2023-11-14T22:13:20Z, 42, "BTC_USD", 1.5, 30000.25)`. -/
theorem anonymousTrade_exact_values :
    (∀ a b : List Char, (∀ c ∈ a, c.isDigit) → (∀ c ∈ b, c.isDigit) → a ≠ [] → b ≠ [] →
      py_Decimal (.str (String.mk (a ++ '.' :: b)))
        = .ok ⟨(digitsToNat (a ++ b) : Int), -(b.length : Int)⟩ ∧
      Dec.toRat ⟨(digitsToNat (a ++ b) : Int), -(b.length : Int)⟩
        = (digitsToNat a : ℚ) + (digitsToNat b : ℚ) / 10 ^ b.length) ∧
    (∀ (t : Int) (dt : PyDateTime), utcfromtimestamp t = .ok dt → secondsSinceEpoch dt = t) ∧
    run cbsTrades [textFrame tradeWire]
      = ⟨[.schedTrades ⟨2023, 11, 14, 22, 13, 20⟩ (.num 42) (.str "BTC_USD")
            ⟨15, -1⟩ ⟨3000025, -2⟩],
         [.schedTrades ⟨2023, 11, 14, 22, 13, 20⟩ (.num 42) (.str "BTC_USD")
            ⟨15, -1⟩ ⟨3000025, -2⟩],
         none⟩ ∧
    Dec.toRat ⟨15, -1⟩ = 3 / 2 ∧ Dec.toRat ⟨3000025, -2⟩ = 120001 / 4 := by
  refine ⟨?_, utcfromtimestamp_exact, rfl, ?_, ?_⟩
  · intro a b ha hb hane hbne
    constructor
    · unfold py_Decimal
      dsimp only []
      rw [show (String.mk (a ++ '.' :: b)).toList = a ++ '.' :: b from rfl,
          parseDecString_point a b ha hb hane hbne]
    · exact Dec_toRat_point a b
  · show ((15 : Int) : ℚ) * (10 : ℚ) ^ (-1 : Int) = 3 / 2
    rw [zpow_neg, zpow_one]
    norm_num
  · show ((3000025 : Int) : ℚ) * (10 : ℚ) ^ (-2 : Int) = 120001 / 4
    rw [zpow_neg]
    norm_num

/-- C2 witness: the literal `1.5` parses exactly, and the scenario's
datetime denotes exactly 1 700 000 000 seconds since the epoch. -/
theorem anonymousTrade_exact_values_witness :
    py_Decimal (.str (String.mk (['1'] ++ '.' :: ['5'])))
      = .ok ⟨(digitsToNat (['1'] ++ ['5']) : Int), -((['5'] : List Char).length : Int)⟩ ∧
    secondsSinceEpoch ⟨2023, 11, 14, 22, 13, 20⟩ = 1700000000 :=
  ⟨(anonymousTrade_exact_values.1 ['1'] ['5']
      (by decide) (by decide) (by decide) (by decide)).1,
   anonymousTrade_exact_values.2.1 1700000000 ⟨2023, 11, 14, 22, 13, 20⟩ rfl⟩

end Cryptology
